import Mathlib

set_option maxHeartbeats 1000000
set_option maxRecDepth 4096

/-- Model of a runtime Python value as it occurs in `python/helpers/workflow_engine.py`:
`None`, booleans, integers, strings, lists, string-keyed dicts (insertion-ordered
association lists), and exception objects (as stored by
`asyncio.gather(..., return_exceptions=True)`). Python floats that appear in the
source (`time.time()`, the `1.0` default of `processing_time`) are represented by
integers counting milliseconds; only `int(time.time())` (whole seconds) and
differences of timestamps are observable, so this is a faithful refinement. -/
inductive PyVal where
| none : PyVal
| bool (b : Bool) : PyVal
| int (n : Int) : PyVal
| str (s : String) : PyVal
| list (xs : List PyVal) : PyVal
| dict (entries : List (String × PyVal)) : PyVal
| exc (cls msg : String) : PyVal
deriving Repr

mutual

/-- Python `==` on modelled values (structural equality, as for the shapes above). -/
def pyBeq : PyVal → PyVal → Bool
| .none, .none => true
| .bool a, .bool b => a == b
| .int a, .int b => a == b
| .str a, .str b => a == b
| .list a, .list b => pyBeqList a b
| .dict a, .dict b => pyBeqDict a b
| .exc c1 m1, .exc c2 m2 => c1 == c2 && m1 == m2
| _, _ => false

def pyBeqList : List PyVal → List PyVal → Bool
| [], [] => true
| a :: as_, b :: bs => pyBeq a b && pyBeqList as_ bs
| _, _ => false

def pyBeqDict : List (String × PyVal) → List (String × PyVal) → Bool
| [], [] => true
| (k1, v1) :: as_, (k2, v2) :: bs => k1 == k2 && pyBeq v1 v2 && pyBeqDict as_ bs
| _, _ => false

end

instance : BEq PyVal := ⟨pyBeq⟩

mutual

/-- Python `repr` of a modelled value (used inside `str` of containers). -/
def pyRepr : PyVal → String
| .none => "None"
| .bool true => "True"
| .bool false => "False"
| .int n => toString n
| .str s => "\x27" ++ s ++ "\x27"
| .list xs => "[" ++ pyReprList xs ++ "]"
| .dict es => "\x7b" ++ pyReprDict es ++ "\x7d"
| .exc c m => c ++ "(" ++ "\x27" ++ m ++ "\x27" ++ ")"

def pyReprList : List PyVal → String
| [] => ""
| [x] => pyRepr x
| x :: xs => pyRepr x ++ ", " ++ pyReprList xs

def pyReprDict : List (String × PyVal) → String
| [] => ""
| [(k, v)] => "\x27" ++ k ++ "\x27: " ++ pyRepr v
| (k, v) :: es => "\x27" ++ k ++ "\x27: " ++ pyRepr v ++ ", " ++ pyReprDict es

end

/-- Python `str` of a modelled value. -/
def pyStr : PyVal → String
| .str s => s
| v => pyRepr v

/-- Python truthiness of a modelled value. -/
def pyTruthy : PyVal → Bool
| .none => false
| .bool b => b
| .int n => n != 0
| .str s => !s.isEmpty
| .list xs => !xs.isEmpty
| .dict es => !es.isEmpty
| .exc _ _ => true

/-- A raised Python exception: class name and message (`str(e)` yields `msg`). -/
structure PyErr where
  cls : String
  msg : String
deriving Repr, DecidableEq

/-- Association-list lookup with `BEq` keys: Python `d.get(k)` / `k in d`. -/
def alookupB {κ α : Type} [BEq κ] : List (κ × α) → κ → Option α
| [], _ => Option.none
| (k', v) :: t, k => if k' == k then some v else alookupB t k

/-- Python dict assignment `d[k] = v`: replaces the value in place if the key is
present (keeping insertion order), else appends the new pair at the end. -/
def dinsert {κ α : Type} [BEq κ] (l : List (κ × α)) (k : κ) (v : α) : List (κ × α) :=
  if l.any (fun p => p.1 == k) then l.map (fun p => if p.1 == k then (k, v) else p)
  else l ++ [(k, v)]

/-- A Python dict with string keys, as found in the wire payload. -/
def PyDict : Type := List (String × PyVal)

/-- Python `d[k]` on a wire dict: KeyError when absent (`str(KeyError(k))` is `'k'`). -/
def ditem (d : PyDict) (k : String) : Except PyErr PyVal :=
  match alookupB d k with
  | some v => .ok v
  | Option.none => .error ⟨"KeyError", "\x27" ++ k ++ "\x27"⟩

/-- Python `d.get(k, dflt)` on a wire dict. -/
def dgetD (d : PyDict) (k : String) (dflt : PyVal) : PyVal :=
  (alookupB d k).getD dflt

/-- Python `d.get(k)` on a wire dict (default `None`). -/
def dget (d : PyDict) (k : String) : PyVal :=
  dgetD d k .none

/-- Python type name of a modelled value (used in error messages). -/
def pyTypeName : PyVal → String
| .none => "NoneType"
| .bool _ => "bool"
| .int _ => "int"
| .str _ => "str"
| .list _ => "list"
| .dict _ => "dict"
| .exc _ _ => "Exception"

/-- Python `v.get(k, dflt)` on an arbitrary value: only dicts have `.get`;
anything else raises AttributeError (as `node.data.get(...)` would when the wire
payload put a non-dict under `"data"`). -/
def pyAttrGet (v : PyVal) (k : String) (dflt : PyVal) : Except PyErr PyVal :=
  match v with
  | .dict es => .ok ((alookupB es k).getD dflt)
  | _ => .error ⟨"AttributeError",
      "\x27" ++ pyTypeName v ++ "\x27 object has no attribute \x27get\x27"⟩

/-- One entry of `execution.execution_log`. The source appends plain dicts whose
key sets vary: every entry has timestamp/level/message; node-scoped entries add
`node_id`; success entries add a truncated `result` string. -/
structure LogEntry where
  timestamp : Nat
  level : String
  message : String
  node_id : Option PyVal := Option.none
  result : Option String := Option.none
deriving Repr

/-- The `WorkflowExecution` dataclass of the source. Timestamps are clock values
(milliseconds, see `PyVal`), `end_time` is `None` until a terminal transition.
The field `vars` models the dataclass field `variables` (that name is reserved
in Lean). -/
structure WorkflowExecution where
  id : String
  status : String
  current_node : Option PyVal
  vars : List (String × PyVal)
  execution_log : List LogEntry
  start_time : Nat
  end_time : Option Nat
deriving Repr

/-- The `WorkflowEngine` class state: the owning `AgentContext` (abstracted to a
name) and the in-memory `self.executions` registry. (`self.node_handlers` is a
fixed table of the eight methods and is modelled by the total dispatch in
`execute_single_node`.) -/
structure WorkflowEngine where
  context : String
  executions : List (String × WorkflowExecution)
deriving Repr

/-- World state for one engine: the engine object plus a wall clock in
milliseconds. Each `time.time()` read returns the clock and advances it by one
millisecond, so timestamps within a run are monotone; `int(time.time())`
truncates to whole seconds, modelled as division by 1000. -/
structure EngineSt where
  engine : WorkflowEngine
  clock : Nat
deriving Repr

/-- State of one in-flight run: the `WorkflowExecution` record the executor owns
and mutates (the registry holds an alias to it; the finished record is written
back to the registry when `execute_workflow` returns) plus the clock. -/
structure RunSt where
  exec : WorkflowExecution
  clock : Nat
deriving Repr

/-- Monad of one run: Python's mutable record + raised exceptions. State already
mutated before a raise persists, as for mutation of a Python object. -/
def RunM (α : Type) : Type := RunSt → Except PyErr α × RunSt

def pureR {α : Type} (a : α) : RunM α := fun s => (.ok a, s)

def bindR {α β : Type} (m : RunM α) (f : α → RunM β) : RunM β := fun s =>
  match m s with
  | (.ok a, s') => f a s'
  | (.error e, s') => (.error e, s')

instance : Monad RunM where
  pure := pureR
  bind := bindR

/-- Raise an exception inside a run. -/
def raiseR {α : Type} (e : PyErr) : RunM α := fun s => (.error e, s)

/-- Python `try`: turn a raised exception into an inspectable value. -/
def attemptR {α : Type} (m : RunM α) : RunM (Except PyErr α) := fun s =>
  match m s with
  | (.ok a, s') => (.ok (.ok a), s')
  | (.error e, s') => (.ok (.error e), s')

/-- Lift a pure fallible computation into a run. -/
def liftR {α : Type} (x : Except PyErr α) : RunM α := fun s => (x, s)

/-- A `time.time()` call in a scope where `time` was imported (only
`execute_workflow` and `_execute_single_node` import it, locally). -/
def timeNowR : RunM Nat := fun s => (.ok s.clock, { s with clock := s.clock + 1 })

/-- The exception raised by any `time.time()` occurrence in a method without a
local `import time`: the module header imports only asyncio, json, typing,
dataclasses, enum and agent, so the name `time` is unbound there. This hits
`_execute_condition_node` (line 284), `_process_parallel_input` (line 348),
`get_execution_status` (line 377) and `stop_execution` (line 384). -/
def timeNameError : PyErr := ⟨"NameError", "name \x27time\x27 is not defined"⟩

def getVariablesR : RunM (List (String × PyVal)) := fun s => (.ok s.exec.vars, s)

/-- `execution.variables[k] = v`. -/
def setVarR (k : String) (v : PyVal) : RunM Unit := fun s =>
  (.ok (), { s with exec := { s.exec with vars := dinsert s.exec.vars k v } })

/-- `execution.current_node = node.id`. -/
def setCurrentNodeR (v : PyVal) : RunM Unit := fun s =>
  (.ok (), { s with exec := { s.exec with current_node := some v } })

/-- `execution.execution_log.append(entry)`. -/
def appendLogR (entry : LogEntry) : RunM Unit := fun s =>
  (.ok (), { s with exec := { s.exec with execution_log := s.exec.execution_log ++ [entry] } })

/-- External capabilities the engine consumes but does not implement: the agent
call behind `self.context.communicate` (`_execute_agent_node`), the tool lookup
and invocation behind `agent.get_tool(...).execute(...)` (`_execute_tool_node`,
returning `response.message`), Python `eval` of a condition expression over a
restricted scope (`_execute_condition_node`), and the `json` stdlib. Each is an
oracle; theorems instantiate them concretely where a claim needs it. -/
structure Env where
  agentCall : String → Except PyErr PyVal
  toolCall : PyVal → List (PyVal × PyVal) → Except PyErr PyVal
  evalExpr : PyVal → List (String × PyVal) → Except PyErr PyVal
  jsonLoads : String → Except PyErr PyVal
  jsonDumps : PyVal → String

/-- The `NodeType` enum (eight kinds). -/
inductive NodeType where
| INPUT | AGENT | TOOL | CONDITION | OUTPUT | LOOP | PARALLEL | MERGE
deriving Repr, DecidableEq

/-- The `.value` string of a `NodeType` member. -/
def nodeTypeValue : NodeType → String
| .INPUT => "input"
| .AGENT => "agent"
| .TOOL => "tool"
| .CONDITION => "condition"
| .OUTPUT => "output"
| .LOOP => "loop"
| .PARALLEL => "parallel"
| .MERGE => "merge"

/-- The enum constructor `NodeType(value)`: ValueError on anything that is not
one of the eight member values. -/
def nodeTypeOf (v : PyVal) : Except PyErr NodeType :=
  match v with
  | .str "input" => .ok .INPUT
  | .str "agent" => .ok .AGENT
  | .str "tool" => .ok .TOOL
  | .str "condition" => .ok .CONDITION
  | .str "output" => .ok .OUTPUT
  | .str "loop" => .ok .LOOP
  | .str "parallel" => .ok .PARALLEL
  | .str "merge" => .ok .MERGE
  | _ => .error ⟨"ValueError", pyRepr v ++ " is not a valid NodeType"⟩

/-- The `WorkflowNode` dataclass. The id and position fields hold whatever value
the wire dict carried (the dataclass does not enforce its annotations at
runtime); `config` and `data` hold the raw values of `node.get("config", {})`
and `node.get("data", {})`. -/
structure WorkflowNode where
  id : PyVal
  type : NodeType
  config : PyVal
  data : PyVal
  x : PyVal
  y : PyVal
deriving Repr

/-- The `WorkflowConnection` dataclass, fields taken verbatim from the wire dict. -/
structure WorkflowConnection where
  id : PyVal
  from_node : PyVal
  from_output : PyVal
  to_node : PyVal
  to_input : PyVal
deriving Repr

/-- A `graph_definition` wire payload after the two `workflow_data.get(..., [])`
reads at the top of `execute_workflow` / `validate_workflow`: the list of raw
node dicts and the list of raw connection dicts (a payload missing either key
simply has the empty list there). -/
structure Wire where
  nodes : List PyDict
  connections : List PyDict

/-- One step of the node-parsing comprehension in `execute_workflow` (lines
82-89): `node["id"]` and `node["type"]` may raise KeyError, `NodeType(...)` may
raise ValueError; config/data/x/y use `.get` with defaults. -/
def parseNode (raw : PyDict) : Except PyErr WorkflowNode := do
  let idv ← ditem raw "id"
  let tyv ← ditem raw "type"
  let ty ← nodeTypeOf tyv
  .ok { id := idv, type := ty, config := dgetD raw "config" (.dict []),
        data := dgetD raw "data" (.dict []), x := dgetD raw "x" (.int 0),
        y := dgetD raw "y" (.int 0) }

/-- The node list comprehension: stops at the first raising element. -/
def parseNodes : List PyDict → Except PyErr (List WorkflowNode)
| [] => .ok []
| raw :: rest => do
  let n ← parseNode raw
  let ns ← parseNodes rest
  .ok (n :: ns)

/-- One step of the connection-parsing comprehension (lines 91-97): all five
fields are read with `conn[...]`, so any missing field raises KeyError. -/
def parseConnection (raw : PyDict) : Except PyErr WorkflowConnection := do
  let idv ← ditem raw "id"
  let fromv ← ditem raw "from"
  let fromOut ← ditem raw "fromOutput"
  let tov ← ditem raw "to"
  let toIn ← ditem raw "toInput"
  .ok { id := idv, from_node := fromv, from_output := fromOut,
        to_node := tov, to_input := toIn }

/-- The connection list comprehension. -/
def parseConnections : List PyDict → Except PyErr (List WorkflowConnection)
| [] => .ok []
| raw :: rest => do
  let c ← parseConnection raw
  let cs ← parseConnections rest
  .ok (c :: cs)

/-- `self._build_connection_map(connections)` (lines 177-183): groups
connections by `from_node`. Built by `_execute_workflow_graph` and then never
read — kept for faithfulness. -/
def build_connection_map (connections : List WorkflowConnection) :
    List (PyVal × List WorkflowConnection) :=
  connections.foldl (fun m conn =>
    match alookupB m conn.from_node with
    | some l => dinsert m conn.from_node (l ++ [conn])
    | Option.none => m ++ [(conn.from_node, [conn])]) []

/-- Python `key.startswith(pre)`. (Defined over the character lists so that it
reduces definitionally; `String.startsWith` itself is compiled code.) -/
def pyStartsWith (s pre : String) : Bool := pre.data.isPrefixOf s.data

/-- `_execute_input_node` (lines 221-227). `execute_workflow` always seeds
`execution.variables` with the key `"input"`, so the membership test at line 223
succeeds on every run and the `default_value` branch is reached only if some
caller deleted the key first. -/
def execute_input_node (_env : Env) (node : WorkflowNode) (_inputs : List (String × PyVal)) :
    RunM PyVal := do
  let vars ← getVariablesR
  match alookupB vars "input" with
  | some v => pure v
  | Option.none => liftR (pyAttrGet node.data "default_value" (.str ""))

/-- `_execute_agent_node` (lines 229-246): serializes the primary input, prefixes
the node's instructions, and delegates to the agent capability
(`self.context.communicate(...).result()`). -/
def execute_agent_node (env : Env) (node : WorkflowNode) (inputs : List (String × PyVal)) :
    RunM PyVal := do
  let input0 := (alookupB inputs "input_0").getD (.str "")
  let input_text :=
    match input0 with
    | .dict es => env.jsonDumps (.dict es)
    | .str s => s
    | v => pyStr v
  let instructions ← liftR (pyAttrGet node.data "instructions" (.str ""))
  let enhanced_message := (pyStr instructions ++ "\n\n" ++ input_text).trim
  liftR (env.agentCall enhanced_message)

/-- `_execute_tool_node` (lines 248-265): merges static `tool_args` with the
dynamic inputs via the per-slot `input_param_<i>` lookup (default `"query"`)
and invokes the tool capability (`agent.get_tool(...).execute(**args).message`,
folded into the `toolCall` oracle). `{**tool_args}` requires a dict. -/
def execute_tool_node (env : Env) (node : WorkflowNode) (inputs : List (String × PyVal)) :
    RunM PyVal := do
  let tool_name ← liftR (pyAttrGet node.data "tool_name" (.str "knowledge_tool"))
  let tool_args ← liftR (pyAttrGet node.data "tool_args" (.dict []))
  let base ←
    match tool_args with
    | .dict es => pure (es.map (fun p => ((PyVal.str p.1), p.2)))
    | v => raiseR ⟨"TypeError", "argument after ** must be a mapping, not " ++ pyTypeName v⟩
  let combined_args ← (inputs.filter (fun p => pyStartsWith p.1 "input_")).foldlM
    (fun (acc : List (PyVal × PyVal)) p => do
      let index := ((p.1.splitOn "_").getD 1 "")
      let param_name ← liftR (pyAttrGet node.data ("input_param_" ++ index) (.str "query"))
      pure (dinsert acc param_name p.2)) base
  liftR (env.toolCall tool_name combined_args)

/-- `_execute_condition_node` (lines 267-289). On a successful `eval` the result
is `{"condition_result": bool(result), "value": input_value}`. On ANY evaluation
fault the `except` block first evaluates `time.time()` for the warning entry's
timestamp — and `time` is unbound in this method's scope, so the handler raises
`NameError: name 'time' is not defined` and the warning entry is never appended. -/
def execute_condition_node (env : Env) (node : WorkflowNode) (inputs : List (String × PyVal)) :
    RunM PyVal := do
  let condition ← liftR (pyAttrGet node.data "condition" (.str "True"))
  let input_value := (alookupB inputs "input_0").getD (.bool true)
  let vars ← getVariablesR
  let eval_context := inputs.foldl (fun acc p => dinsert acc p.1 p.2)
    [("input", input_value), ("variables", PyVal.dict vars)]
  match env.evalExpr condition eval_context with
  | .ok result => pure (.dict [("condition_result", .bool (pyTruthy result)), ("value", input_value)])
  | .error _ => raiseR timeNameError

/-- `_execute_output_node` (lines 291-305): `json` parses string input (any
parse fault wraps the input as `{"output": input}`), `formatted` substitutes the
input into the `{value}` placeholder of the template, anything else passes the
input through. -/
def execute_output_node (env : Env) (node : WorkflowNode) (inputs : List (String × PyVal)) :
    RunM PyVal := do
  let output_format ← liftR (pyAttrGet node.data "format" (.str "raw"))
  let input_value := (alookupB inputs "input_0").getD (.str "")
  if output_format == .str "json" then
    match input_value with
    | .str s =>
      match env.jsonLoads s with
      | .ok v => pure v
      | .error _ => pure (.dict [("output", input_value)])
    | v => pure v
  else if output_format == .str "formatted" then do
    let template ← liftR (pyAttrGet node.data "template" (.str "{value}"))
    match template with
    | .str t => pure (.str (t.replace "{value}" (pyStr input_value)))
    | v => raiseR ⟨"AttributeError",
        "\x27" ++ pyTypeName v ++ "\x27 object has no attribute \x27format\x27"⟩
  else
    pure input_value

/-- Python `range(n)` bound: ints use their value (negative means zero
iterations), bools count as 0/1 (bool is an int subclass), anything else is a
TypeError. -/
def pyRangeLen (v : PyVal) : Except PyErr Nat :=
  match v with
  | .int n => .ok n.toNat
  | .bool b => .ok (if b then 1 else 0)
  | _ => .error ⟨"TypeError",
      "\x27" ++ pyTypeName v ++ "\x27 object cannot be interpreted as an integer"⟩

/-- The iteration loop of `_execute_loop_node` (lines 312-319), from iteration
`i` with `total` iterations in all. -/
def loop_iterate (nodeId : PyVal) (input_value : PyVal) : Nat → Nat → RunM (List PyVal)
| _, 0 => pure []
| i, remaining + 1 => do
  setVarR ("loop_" ++ pyStr nodeId ++ "_iteration") (.int i)
  setVarR ("loop_" ++ pyStr nodeId ++ "_input") input_value
  let rest ← loop_iterate nodeId input_value (i + 1) remaining
  pure (.dict [("iteration", .int i), ("input", input_value), ("result", input_value)] :: rest)

/-- `_execute_loop_node` (lines 307-321): replays the same input `iterations`
times without re-invoking any downstream subgraph. -/
def execute_loop_node (_env : Env) (node : WorkflowNode) (inputs : List (String × PyVal)) :
    RunM PyVal := do
  let iterations ← liftR (pyAttrGet node.data "iterations" (.int 1))
  let input_value := (alookupB inputs "input_0").getD (.str "")
  let total ← liftR (pyRangeLen iterations)
  let results ← loop_iterate node.id input_value 0 total
  pure (.list results)

/-- `await asyncio.sleep(t)`: no observable effect in this model beyond
requiring a numeric argument. -/
def pySleep (v : PyVal) : Except PyErr Unit :=
  match v with
  | .int _ => .ok ()
  | .bool _ => .ok ()
  | _ => .error ⟨"TypeError",
      "\x27" ++ pyTypeName v ++ "\x27 object cannot be interpreted as a sleep duration"⟩

/-- `_process_parallel_input` (lines 339-349): sleeps for the configured
processing time, then builds its result dict — whose `"timestamp"` value calls
`time.time()` in a scope where `time` is unbound, so EVERY unit raises
`NameError: name 'time' is not defined` instead of returning its result. -/
def process_parallel_input (node : WorkflowNode) (input_value : PyVal) (index : Nat) :
    Except PyErr PyVal := do
  let processing_time ← pyAttrGet node.data "processing_time" (.int 1)
  pySleep processing_time
  let _ts ← (Except.error timeNameError : Except PyErr Nat)
  .ok (.dict [("index", .int index), ("input", input_value),
    ("processed", .str ("Processed: " ++ pyStr input_value)), ("timestamp", .int 0)])

/-- `asyncio.gather(*tasks, return_exceptions=True)` over the per-input units:
one entry per input, in input order; a unit's raised exception becomes that
unit's entry as an exception object. -/
def gather_parallel (node : WorkflowNode) : List PyVal → Nat → List PyVal
| [], _ => []
| v :: rest, i =>
  (match process_parallel_input node v i with
   | .ok r => r
   | .error e => .exc e.cls e.msg) :: gather_parallel node rest (i + 1)

/-- `_execute_parallel_node` (lines 323-337): fans out one unit per `input_*`
value and joins with `return_exceptions=True`. -/
def execute_parallel_node (_env : Env) (node : WorkflowNode) (inputs : List (String × PyVal)) :
    RunM PyVal := do
  let parallel_inputs := (inputs.filter (fun p => pyStartsWith p.1 "input_")).map (fun p => p.2)
  if parallel_inputs.isEmpty then
    pure (.list [])
  else
    pure (.list (gather_parallel node parallel_inputs 0))

/-- `_execute_merge_node` (lines 351-363). -/
def execute_merge_node (_env : Env) (node : WorkflowNode) (inputs : List (String × PyVal)) :
    RunM PyVal := do
  let merge_strategy ← liftR (pyAttrGet node.data "strategy" (.str "concatenate"))
  let input_values := (inputs.filter (fun p => pyStartsWith p.1 "input_")).map (fun p => p.2)
  if merge_strategy == .str "concatenate" then
    pure (.str (String.intercalate " " (input_values.map pyStr)))
  else if merge_strategy == .str "array" then
    pure (.list input_values)
  else if merge_strategy == .str "json" then
    pure (.dict ((input_values.enum).map (fun p => ("input_" ++ toString p.1, p.2))))
  else
    pure ((input_values.head?).getD .none)

/-- The `self.node_handlers` dispatch table (lines 52-62): one handler per
`NodeType` member. Since the table is total, the `if not handler` raise at
lines 196-197 of `_execute_single_node` is unreachable. -/
def node_handler (env : Env) : NodeType → WorkflowNode → List (String × PyVal) → RunM PyVal
| .INPUT => execute_input_node env
| .AGENT => execute_agent_node env
| .TOOL => execute_tool_node env
| .CONDITION => execute_condition_node env
| .OUTPUT => execute_output_node env
| .LOOP => execute_loop_node env
| .PARALLEL => execute_parallel_node env
| .MERGE => execute_merge_node env

/-- `_execute_single_node` (lines 185-219): append an info entry, dispatch to
the handler; on success append a success entry with the stringified result
truncated to 200 characters and return the result; on a handler fault append an
error entry naming the node and re-raise. -/
def execute_single_node (env : Env) (node : WorkflowNode) (inputs : List (String × PyVal)) :
    RunM PyVal := do
  let t ← timeNowR
  appendLogR { timestamp := t, level := "info",
               message := "Executing node " ++ pyStr node.id ++ " (" ++ nodeTypeValue node.type ++ ")",
               node_id := some node.id }
  let r ← attemptR (node_handler env node.type node inputs)
  match r with
  | .ok result => do
    let t2 ← timeNowR
    appendLogR { timestamp := t2, level := "success",
                 message := "Node " ++ pyStr node.id ++ " completed successfully",
                 node_id := some node.id, result := some ((pyStr result).take 200) }
    pure result
  | .error e => do
    let t2 ← timeNowR
    appendLogR { timestamp := t2, level := "error",
                 message := "Node " ++ pyStr node.id ++ " failed: " ++ e.msg,
                 node_id := some node.id }
    raiseR e

/-- The per-run memo of the nested `execute_node` closure: the `visited` set and
the `results` dict, both keyed by node id. A node is added to `visited` only
AFTER its handler returned (lines 159-160). -/
structure MemoSt where
  visited : List PyVal
  results : List (PyVal × PyVal)

/-- The prerequisite loop of `execute_node` (lines 150-153): resolve each
feeding connection's source node in declaration order via `step` (the
recursive entry one recursion level deeper), keying each result by
`input_<to_input>` (a later duplicate slot overwrites, as for a dict). A
`from` id absent from `node_map` raises KeyError (line 151). -/
def execute_prereqs (step : WorkflowNode → MemoSt → RunM (PyVal × MemoSt))
    (node_map : List (PyVal × WorkflowNode)) :
    List WorkflowConnection → List (String × PyVal) → MemoSt →
      RunM (List (String × PyVal) × MemoSt)
| [], acc, memo => pureR (acc, memo)
| prereq :: rest, acc, memo =>
  match alookupB node_map prereq.from_node with
  | Option.none => raiseR ⟨"KeyError", pyRepr prereq.from_node⟩
  | some prereq_node =>
    bindR (step prereq_node memo)
      (fun r => execute_prereqs step node_map rest
        (dinsert acc ("input_" ++ pyStr prereq.to_input) r.1) r.2)

/-- The nested `async def execute_node(node)` of `_execute_workflow_graph`
(lines 142-162): if the node was already visited return its cached result
(`results.get`, `None` when absent); otherwise recursively resolve every node
feeding an incoming connection, collect their results keyed by
`input_<to_input>`, then dispatch this node once and memoize. The `fuel`
argument models Python's finite recursion depth: exhausting it is
`RecursionError`, exactly what CPython raises if the recursion were unbounded. -/
def execute_node (env : Env) (node_map : List (PyVal × WorkflowNode))
    (connections : List WorkflowConnection) :
    Nat → WorkflowNode → MemoSt → RunM (PyVal × MemoSt)
| 0, _, _ => raiseR ⟨"RecursionError", "maximum recursion depth exceeded"⟩
| fuel + 1, node, memo =>
  if memo.visited.any (fun v => v == node.id) then
    pureR ((alookupB memo.results node.id).getD .none, memo)
  else
    bindR (execute_prereqs (execute_node env node_map connections fuel) node_map
            (connections.filter (fun conn => conn.to_node == node.id)) [] memo)
      (fun pr =>
        bindR (setCurrentNodeR node.id) (fun _ =>
          bindR (execute_single_node env node pr.1) (fun node_result =>
            pureR (node_result,
              { visited := pr.2.visited ++ [node.id],
                results := dinsert pr.2.results node.id node_result }))))

/-- The loop over `start_nodes` (lines 165-168), collecting `final_results`.
Each top-level `execute_node` call starts with the full recursion budget. -/
def run_start_nodes (env : Env) (node_map : List (PyVal × WorkflowNode))
    (connections : List WorkflowConnection) :
    List WorkflowNode → List PyVal → MemoSt → RunM (List PyVal × MemoSt)
| [], acc, memo => pureR (acc, memo)
| n :: rest, acc, memo =>
  bindR (execute_node env node_map connections 1000 n memo)
    (fun r => run_start_nodes env node_map connections rest (acc ++ [r.1]) r.2)

/-- `_execute_workflow_graph` (lines 127-175). Start nodes are the nodes with no
incoming connection; if there are none the run fails. Only the start nodes are
demanded (the recursion of `execute_node` walks UPSTREAM through prerequisites),
and the result is the output nodes' cached values if any node has type OUTPUT,
else the single start chain's value, else the list of start-chain values. -/
def execute_workflow_graph (env : Env) (nodes : List WorkflowNode)
    (connections : List WorkflowConnection) : RunM PyVal :=
  let node_map := nodes.foldl (fun m node => dinsert m node.id node) []
  let _connection_map := build_connection_map connections
  let start_nodes := nodes.filter (fun node =>
    !(connections.any (fun conn => conn.to_node == node.id)))
  if start_nodes.isEmpty then
    raiseR ⟨"Exception", "No starting nodes found in workflow"⟩
  else
    bindR (run_start_nodes env node_map connections start_nodes [] ⟨[], []⟩)
      (fun r =>
        let output_nodes := nodes.filter (fun node => node.type == NodeType.OUTPUT)
        if !output_nodes.isEmpty then
          pureR (.list (output_nodes.map (fun node => (alookupB r.2.results node.id).getD .none)))
        else
          match r.1 with
          | [single] => pureR single
          | rs => pureR (.list rs))

/-- The body of the `try` block of `execute_workflow` (lines 80-100): parse the
wire nodes and connections, then walk the graph. -/
def run_try (env : Env) (workflow_data : Wire) : RunM PyVal :=
  bindR (liftR (parseNodes workflow_data.nodes)) (fun nodes =>
    bindR (liftR (parseConnections workflow_data.connections)) (fun connections =>
      execute_workflow_graph env nodes connections))

/-- `f"exec_{int(time.time())}"` — the execution id from the whole-second start
timestamp (clock is in milliseconds, `int` truncates to seconds). -/
def execIdOf (clock : Nat) : String := "exec_" ++ toString (clock / 1000)

/-- A log entry as the plain dict the source appends. -/
def logEntryToPy (e : LogEntry) : PyVal :=
  .dict ([("timestamp", .int e.timestamp), ("level", .str e.level), ("message", .str e.message)]
    ++ (match e.node_id with | some v => [("node_id", v)] | Option.none => [])
    ++ (match e.result with | some r => [("result", .str r)] | Option.none => []))

/-- `execute_workflow` (lines 64-125). Creates the Execution Record with status
`running` and `variables = {"input": input_data}`, registers it, runs the try
block, and returns `{execution_id, result, log, duration}` on success or
`{execution_id, error, log}` (no duration) on any caught fault, after marking
the record completed/failed and stamping `end_time`. The record the registry
aliases is written back in its final state at return. Never raises: both match
arms return a plain value. -/
def execute_workflow (env : Env) (workflow_data : Wire) (input_data : PyVal)
    (s : EngineSt) : PyVal × EngineSt :=
  let t0 := s.clock
  let execution_id := execIdOf t0
  let t1 := t0 + 1
  let execution : WorkflowExecution :=
    { id := execution_id, status := "running", current_node := Option.none,
      vars := [("input", input_data)], execution_log := [], start_time := t1,
      end_time := Option.none }
  let executions1 := dinsert s.engine.executions execution_id execution
  match run_try env workflow_data { exec := execution, clock := t1 + 1 } with
  | (.ok result, st) =>
    let t2 := st.clock
    let ex2 := { st.exec with status := "completed", end_time := some t2 }
    (.dict [("execution_id", .str execution_id), ("result", result),
            ("log", .list (ex2.execution_log.map logEntryToPy)),
            ("duration", .int ((t2 : Int) - (t1 : Int)))],
     { engine := { s.engine with executions := dinsert executions1 execution_id ex2 },
       clock := t2 + 1 })
  | (.error e, st) =>
    let t2 := st.clock
    let t3 := t2 + 1
    let entry : LogEntry := { timestamp := t3, level := "error", message := e.msg }
    let ex2 := { st.exec with
      status := "failed", end_time := some t2,
      execution_log := st.exec.execution_log ++ [entry] }
    (.dict [("execution_id", .str execution_id), ("error", .str e.msg),
            ("log", .list (ex2.execution_log.map logEntryToPy))],
     { engine := { s.engine with executions := dinsert executions1 execution_id ex2 },
       clock := t3 + 1 })

/-- `get_execution_status` (lines 365-378). For a finished record this returns
the status snapshot; for a record whose `end_time` is still `None` (or `0`,
falsy), the expression `execution.end_time or time.time()` evaluates
`time.time()` — unbound in this method — and raises NameError. -/
def get_execution_status (execution_id : String) (s : EngineSt) :
    Except PyErr (Option PyVal) × EngineSt :=
  match alookupB s.engine.executions execution_id with
  | Option.none => (.ok Option.none, s)
  | some ex =>
    match ex.end_time with
    | some t =>
      if t ≠ 0 then
        (.ok (some (.dict [("id", .str ex.id), ("status", .str ex.status),
          ("current_node", (ex.current_node).getD .none),
          ("progress", .int ex.execution_log.length),
          ("start_time", .int ex.start_time), ("end_time", .int t),
          ("duration", .int ((t : Int) - (ex.start_time : Int)))])), s)
      else (.error timeNameError, s)
    | Option.none => (.error timeNameError, s)

/-- `stop_execution` (lines 380-386). An absent or non-running record is left
untouched and `False` is returned. For a running record line 383 sets
`status = "stopped"`, and then line 384's `time.time()` raises NameError (the
module never imports `time` at top level), so `end_time` is never stamped and
`True` is never returned — the exception propagates to the caller. -/
def stop_execution (execution_id : String) (s : EngineSt) :
    Except PyErr Bool × EngineSt :=
  match alookupB s.engine.executions execution_id with
  | some ex =>
    if ex.status == "running" then
      (.error timeNameError,
       { s with engine := { s.engine with
           executions := dinsert s.engine.executions execution_id
             { ex with status := "stopped" } } })
    else (.ok false, s)
  | Option.none => (.ok false, s)

/-- The first validation loop (lines 396-400): required node fields, checked by
truthiness of `node.get(...)`. -/
def nodeFieldErrors (nodes : List PyDict) : List String :=
  nodes.foldl (fun errs node =>
    let errs := if !(pyTruthy (dget node "id")) then
        errs ++ ["Node missing required \x27id\x27 field"] else errs
    if !(pyTruthy (dget node "type")) then
      errs ++ ["Node " ++ pyStr (dgetD node "id" (.str "unknown")) ++
        " missing required \x27type\x27 field"]
    else errs) []

/-- The second validation loop (lines 402-406): required connection fields,
checked by key membership. -/
def connFieldErrors (connections : List PyDict) : List String :=
  connections.foldl (fun errs conn =>
    ["id", "from", "to", "fromOutput", "toInput"].foldl (fun errs field =>
      if (alookupB conn field).isNone then
        errs ++ ["Connection missing required \x27" ++ field ++ "\x27 field"]
      else errs) errs) []

/-- The set comprehension `{node["id"] for node in nodes}` at line 409 of
`validate_workflow`: unlike the loop above it indexes with `node["id"]`, so the
first node missing an `id` raises KeyError out of `validate_workflow`. The set
is only used for membership tests, so a duplicate-preserving list models it. -/
def nodeIdsE : List PyDict → Except PyErr (List PyVal)
| [] => .ok []
| node :: rest => do
  let idv ← ditem node "id"
  let restIds ← nodeIdsE rest
  .ok (idv :: restIds)

/-- The connection loop of lines 412-419: dangling `from`/`to` endpoints are
errors, and both endpoints are accumulated into `connected_nodes`. -/
def connectionChecks (node_ids : List PyVal) (connections : List PyDict) :
    List String × List PyVal :=
  connections.foldl (fun (acc : List String × List PyVal) conn =>
    let f := dget conn "from"
    let t := dget conn "to"
    let errs := if !(node_ids.any (fun i => i == f)) then
        acc.1 ++ ["Connection references non-existent source node: " ++ pyStr f]
      else acc.1
    let errs := if !(node_ids.any (fun i => i == t)) then
        errs ++ ["Connection references non-existent target node: " ++ pyStr t]
      else errs
    (errs, acc.2 ++ [f, t])) ([], [])

/-- The orphan check of lines 422-424: a node (in a graph of at least two
nodes) whose id appears in no connection endpoint yields a warning. Indexing is
again `node["id"]` (KeyError is unreachable here in practice: line 409 already
raised for such a payload). -/
def orphanWarnings (nodes : List PyDict) (connected : List PyVal) (total : Nat) :
    Except PyErr (List String) :=
  nodes.foldlM (fun warns node => do
    let idv ← ditem node "id"
    if !(connected.any (fun v => v == idv)) && total > 1 then
      pure (warns ++ ["Node \x27" ++ pyStr (dget node "id") ++
        "\x27 is not connected to the workflow"])
    else pure warns) []

/-- Adjacency-list initialisation of `_check_circular_dependencies` (lines
442-444): `adj_list[node["id"]] = []`, a KeyError for a node missing `id`
(caught by the try around the cycle check in `validate_workflow`). -/
def buildAdjInit (nodes : List PyDict) : Except PyErr (List (PyVal × List PyVal)) :=
  nodes.foldlM (fun adj node => do
    let idv ← ditem node "id"
    pure (dinsert adj idv [])) []

/-- Edge insertion of `_check_circular_dependencies` (lines 446-448): guarded by
truthiness of both endpoints; `adj_list[conn["from"]]` raises KeyError when the
source endpoint is not a node id. -/
def buildAdjConns (adj0 : List (PyVal × List PyVal)) (connections : List PyDict) :
    Except PyErr (List (PyVal × List PyVal)) :=
  connections.foldlM (fun adj conn =>
    if pyTruthy (dget conn "from") && pyTruthy (dget conn "to") then do
      let f ← ditem conn "from"
      let t ← ditem conn "to"
      match alookupB adj f with
      | some l => pure (dinsert adj f (l ++ [t]))
      | Option.none => Except.error ⟨"KeyError", pyRepr f⟩
    else pure adj) adj0

/-- The two mutated sets of the DFS closure `has_cycle` (lines 451-452). -/
structure DfsSt where
  visited : List PyVal
  rec_stack : List PyVal

/-- The neighbour loop of `has_cycle` (lines 463-465), with `step` the DFS at
one recursion level deeper: short-circuits on the first neighbour that reports
a cycle (leaving `rec_stack` as is, exactly like the early `return True`). -/
def has_cycle_list (step : PyVal → DfsSt → Except PyErr (Bool × DfsSt)) :
    List PyVal → DfsSt → Except PyErr (Bool × DfsSt)
| [], st => .ok (false, st)
| n :: rest, st => do
  let r ← step n st
  if r.1 then .ok (true, r.2) else has_cycle_list step rest r.2

/-- The nested `has_cycle(node_id)` of `_check_circular_dependencies` (lines
454-468): grey/white marking via `rec_stack` and `visited`; the node is removed
from `rec_stack` only when no neighbour closes a cycle. `fuel` models Python's
finite recursion depth (RecursionError when exhausted). -/
def has_cycle (adj : List (PyVal × List PyVal)) :
    Nat → PyVal → DfsSt → Except PyErr (Bool × DfsSt)
| 0, _, _ => .error ⟨"RecursionError", "maximum recursion depth exceeded"⟩
| fuel + 1, node_id, st =>
  if st.rec_stack.any (fun v => v == node_id) then .ok (true, st)
  else if st.visited.any (fun v => v == node_id) then .ok (false, st)
  else do
    let st1 : DfsSt := { visited := st.visited ++ [node_id],
                         rec_stack := st.rec_stack ++ [node_id] }
    let r ← has_cycle_list (has_cycle adj fuel) ((alookupB adj node_id).getD []) st1
    if r.1 then .ok (true, r.2)
    else .ok (false, { r.2 with rec_stack := r.2.rec_stack.filter (fun v => !(v == node_id)) })

/-- The driver loop of `_check_circular_dependencies` (lines 470-473): run the
DFS from every not-yet-visited node in adjacency-list insertion order; the
first detected cycle raises. -/
def check_cycles_loop (adj : List (PyVal × List PyVal)) :
    List PyVal → DfsSt → Except PyErr Unit
| [], _ => .ok ()
| node_id :: rest, st =>
  if st.visited.any (fun v => v == node_id) then check_cycles_loop adj rest st
  else do
    let r ← has_cycle adj 1000 node_id st
    if r.1 then Except.error ⟨"Exception", "Circular dependency detected in workflow"⟩
    else check_cycles_loop adj rest r.2

/-- `_check_circular_dependencies` (lines 440-473). -/
def check_circular_dependencies (nodes connections : List PyDict) : Except PyErr Unit := do
  let adj0 ← buildAdjInit nodes
  let adj ← buildAdjConns adj0 connections
  check_cycles_loop adj (adj.map (fun p => p.1)) ⟨[], []⟩

/-- `validate_workflow` (lines 388-438): collects required-field errors, then
(line 409) materialises the node-id set — raising KeyError for a node missing
`id` —, then dangling-endpoint errors, orphan warnings, and finally the cycle
check whose exception message is appended as one more error. The result is
`{valid, errors, warnings, node_count, connection_count}`. -/
def validate_workflow (workflow_data : Wire) : Except PyErr PyVal := do
  let nodes := workflow_data.nodes
  let connections := workflow_data.connections
  let errors1 := nodeFieldErrors nodes
  let errors2 := errors1 ++ connFieldErrors connections
  let node_ids ← nodeIdsE nodes
  let (errors3, connected_nodes) := connectionChecks node_ids connections
  let errorsA := errors2 ++ errors3
  let warnings ← orphanWarnings nodes connected_nodes nodes.length
  let errorsB := errorsA ++
    (match check_circular_dependencies nodes connections with
     | .ok () => []
     | .error e => [e.msg])
  .ok (.dict [("valid", .bool errorsB.isEmpty),
    ("errors", .list (errorsB.map PyVal.str)),
    ("warnings", .list (warnings.map PyVal.str)),
    ("node_count", .int nodes.length),
    ("connection_count", .int connections.length)])

/-- The module-level singleton accessor (lines 538-545): `_workflow_engine` is a
process-wide global, modelled as the `Option WorkflowEngine` argument threaded
in and out. The first call constructs the engine bound to ITS caller's context
and stores it; every later call returns that same stored engine unchanged, no
matter which context is passed (an engine object is always truthy, so the
`if not _workflow_engine` guard only fires on `None`). -/
def get_workflow_engine (g : Option WorkflowEngine) (context : String) :
    WorkflowEngine × Option WorkflowEngine :=
  match g with
  | Option.none =>
    let engine : WorkflowEngine := { context := context, executions := [] }
    (engine, some engine)
  | some engine => (engine, some engine)

theorem alookupB_map_replace {κ α : Type} [BEq κ] [LawfulBEq κ] (l : List (κ × α)) (k : κ)
    (v : α) (h : l.any (fun p => p.1 == k) = true) :
    alookupB (l.map (fun p => if p.1 == k then (k, v) else p)) k = some v := by
  induction l with
  | nil => simp at h
  | cons p t ih =>
    simp only [List.any_cons, Bool.or_eq_true] at h
    simp only [List.map_cons]
    by_cases hp : (p.1 == k) = true
    · rw [if_pos hp]
      simp [alookupB]
    · rw [if_neg hp]
      have ht : t.any (fun p => p.1 == k) = true := by
        rcases h with h | h
        · exact absurd h hp
        · exact h
      simp [alookupB, hp, ih ht]

theorem alookupB_map_replace_ne {κ α : Type} [BEq κ] [LawfulBEq κ] (l : List (κ × α))
    (k k' : κ) (v : α) (h : (k' == k) = false) :
    alookupB (l.map (fun p => if p.1 == k then (k, v) else p)) k' = alookupB l k' := by
  have hne : k' ≠ k := by simpa using h
  induction l with
  | nil => rfl
  | cons p t ih =>
    simp only [List.map_cons]
    by_cases hp : (p.1 == k) = true
    · have hpk : p.1 = k := by simpa using hp
      have hk1 : (k == k') = false := by
        simp only [beq_eq_false_iff_ne]
        exact fun hkk => hne hkk.symm
      have hk2 : (p.1 == k') = false := by rw [hpk]; exact hk1
      rw [if_pos hp]
      simp [alookupB, hk1, hk2, ih]
    · rw [if_neg hp]
      by_cases hq : (p.1 == k') = true
      · simp [alookupB, hq]
      · simp [alookupB, hq, ih]

theorem alookupB_append_single_ne {κ α : Type} [BEq κ] [LawfulBEq κ] (l : List (κ × α))
    (k k' : κ) (v : α) (h : (k' == k) = false) :
    alookupB (l ++ [(k, v)]) k' = alookupB l k' := by
  have hne : k' ≠ k := by simpa using h
  have hk1 : (k == k') = false := by
    simp only [beq_eq_false_iff_ne]
    exact fun hkk => hne hkk.symm
  induction l with
  | nil => simp [alookupB, hk1]
  | cons p t ih =>
    simp only [List.cons_append]
    by_cases hq : (p.1 == k') = true
    · simp [alookupB, hq]
    · simp [alookupB, hq, ih]

theorem alookupB_append_left {κ α : Type} [BEq κ] (l m : List (κ × α)) (k : κ)
    (h : l.any (fun p => p.1 == k) = false) :
    alookupB (l ++ m) k = alookupB m k := by
  induction l with
  | nil => rfl
  | cons p t ih =>
    simp only [List.any_cons, Bool.or_eq_false_iff] at h
    simp [alookupB, h.1, ih h.2]

theorem alookupB_dinsert_self {κ α : Type} [BEq κ] [LawfulBEq κ] (l : List (κ × α)) (k : κ)
    (v : α) : alookupB (dinsert l k v) k = some v := by
  unfold dinsert
  by_cases h : l.any (fun p => p.1 == k) = true
  · rw [if_pos h]
    exact alookupB_map_replace l k v h
  · rw [if_neg h]
    rw [alookupB_append_left l _ k (Bool.eq_false_iff.mpr h)]
    simp [alookupB]

theorem alookupB_dinsert_ne {κ α : Type} [BEq κ] [LawfulBEq κ] (l : List (κ × α)) (k k' : κ)
    (v : α) (h : (k' == k) = false) :
    alookupB (dinsert l k v) k' = alookupB l k' := by
  unfold dinsert
  by_cases ha : l.any (fun p => p.1 == k) = true
  · rw [if_pos ha]
    exact alookupB_map_replace_ne l k k' v h
  · rw [if_neg ha]
    exact alookupB_append_single_ne l k k' v h

/-- Look a key up inside a `PyVal` dict result (verification-side accessor). -/
def pyDictGet (v : PyVal) (k : String) : Option PyVal :=
  match v with
  | .dict es => alookupB es k
  | _ => Option.none

/-- A benign oracle environment: the agent and tool capabilities answer with an
empty string, expressions evaluate to `True`, JSON parses to `None`. -/
def env0 : Env :=
  { agentCall := fun _ => .ok (.str ""),
    toolCall := fun _ _ => .ok (.str ""),
    evalExpr := fun _ _ => .ok (.bool true),
    jsonLoads := fun _ => .ok .none,
    jsonDumps := fun _ => "" }

/-- An oracle environment whose expression evaluator faults, as `eval` does on a
condition referencing an undefined variable. -/
def envFault : Env :=
  { env0 with
    evalExpr := fun _ _ => .error ⟨"NameError", "name \x27undefined_var\x27 is not defined"⟩ }

/-- A fresh engine world: empty registry, clock at 0 ms (second 0). -/
def s0 : EngineSt := { engine := { context := "ctx", executions := [] }, clock := 0 }

/-- A wire node dict `{"id": i, "type": ty, "data": data}`. -/
def mkNode (i ty : String) (data : List (String × PyVal)) : PyDict :=
  [("id", PyVal.str i), ("type", PyVal.str ty), ("data", PyVal.dict data)]

/-- A wire connection dict with slot indices 0. -/
def mkConn (i f t : String) : PyDict :=
  [("id", PyVal.str i), ("from", PyVal.str f), ("fromOutput", PyVal.int 0),
   ("to", PyVal.str t), ("toInput", PyVal.int 0)]

/-- The diamond graph A→B, A→C, B→D, C→D of the spec, all nodes of type
`input`. -/
def diamondWire : Wire :=
  { nodes := [mkNode "A" "input" [], mkNode "B" "input" [], mkNode "C" "input" [],
              mkNode "D" "input" []],
    connections := [mkConn "c1" "A" "B", mkConn "c2" "A" "C",
                    mkConn "c3" "B" "D", mkConn "c4" "C" "D"] }

/-- The two-node cycle A→B→A: every node has an incoming connection. -/
def cycWire : Wire :=
  { nodes := [mkNode "A" "input" [], mkNode "B" "input" []],
    connections := [mkConn "c1" "A" "B", mkConn "c2" "B" "A"] }

/-- The empty graph definition. -/
def emptyWire : Wire := { nodes := [], connections := [] }

/-- One INPUT node with a configured default value `"d"`. -/
def inputWire : Wire :=
  { nodes := [mkNode "i" "input" [("default_value", .str "d")]], connections := [] }

/-- One CONDITION node whose expression references an undefined variable. -/
def condWire : Wire :=
  { nodes := [mkNode "c" "condition" [("condition", .str "undefined_var")]],
    connections := [] }

/-- A bare PARALLEL node (default processing time). -/
def pnode3 : WorkflowNode :=
  { id := .str "p", type := .PARALLEL, config := .dict [], data := .dict [],
    x := PyVal.int 0, y := PyVal.int 0 }

/-- Three input slots for the PARALLEL node. -/
def inputs3 : List (String × PyVal) :=
  [("input_0", .str "a"), ("input_1", .str "b"), ("input_2", .str "c")]

/-- A record in its initial running shape, for calling a handler directly. -/
def rec0 : WorkflowExecution :=
  { id := "e", status := "running", current_node := Option.none, vars := [],
    execution_log := [], start_time := 0, end_time := Option.none }

/-- A run state for calling a handler directly. -/
def runSt0 : RunSt := { exec := rec0, clock := 0 }

/-- A running record named `e1` (no `end_time` yet). -/
def runningRec : WorkflowExecution :=
  { id := "e1", status := "running", current_node := Option.none, vars := [],
    execution_log := [], start_time := 5, end_time := Option.none }

/-- A registry holding the single running record `e1`. -/
def runningSt : EngineSt :=
  { engine := { context := "c", executions := [("e1", runningRec)] }, clock := 100 }

/-- C1: the claim says executing the diamond A→B, A→C, B→D, C→D dispatches each
of A, B, C, D exactly once. On the code, `_execute_workflow_graph` demands only
the start nodes and `execute_node` recursion walks UPSTREAM through
prerequisites, so only A is ever dispatched: the finished record's log holds the
two entries (info + success) for A and zero entries for B, C and D, the run
completes, and the run's result is just A's value. -/
theorem c1_diamond_only_start_node_runs :
    ((alookupB (execute_workflow env0 diamondWire (.str "x") s0).2.engine.executions
        "exec_0").map (fun ex =>
      (ex.status,
       ex.execution_log.countP (fun e => e.node_id == some (PyVal.str "A")),
       ex.execution_log.countP (fun e => e.node_id == some (PyVal.str "B")),
       ex.execution_log.countP (fun e => e.node_id == some (PyVal.str "C")),
       ex.execution_log.countP (fun e => e.node_id == some (PyVal.str "D"))))) =
      some ("completed", 2, 0, 0, 0)
  ∧ pyDictGet (execute_workflow env0 diamondWire (.str "x") s0).1 "result" =
      some (.str "x")
  ∧ pyDictGet (execute_workflow env0 diamondWire (.str "x") s0).1 "error" =
      Option.none := by
  exact ⟨by rfl, by rfl, by rfl⟩

/-- C4: the claim says a CONDITION node whose expression faults yields
`{condition_result: true, value: input}` with a warning log entry and no
exception out of `execute`. On the code the `except` block itself raises
`NameError: name 'time' is not defined` (no `import time` in scope), so the run
FAILS with that error, the record is marked failed, and no warning entry is ever
appended. -/
theorem c4_condition_fault_raises_nameerror :
    pyDictGet (execute_workflow envFault condWire (.str "inp") s0).1 "error" =
      some (.str "name \x27time\x27 is not defined")
  ∧ pyDictGet (execute_workflow envFault condWire (.str "inp") s0).1 "result" =
      Option.none
  ∧ ((alookupB (execute_workflow envFault condWire (.str "inp") s0).2.engine.executions
        "exec_0").map (fun ex =>
      (ex.status, ex.execution_log.countP (fun e => e.level == "warning")))) =
      some ("failed", 0) := by
  exact ⟨by rfl, by rfl, by rfl⟩

/-- C5: the claim says a PARALLEL node with 3 inputs where only unit 2 faults
returns 3 entries with entry 2 an error marker and entries 1 and 3 normal
results. On the code `_process_parallel_input` evaluates `time.time()` with
`time` unbound, so EVERY unit faults: the join does return 3 entries in input
order, but all three are captured `NameError` markers and no unit can ever
produce a normal result. -/
theorem c5_parallel_every_unit_faults :
    execute_parallel_node env0 pnode3 inputs3 runSt0 =
      (.ok (.list [.exc "NameError" "name \x27time\x27 is not defined",
                   .exc "NameError" "name \x27time\x27 is not defined",
                   .exc "NameError" "name \x27time\x27 is not defined"]), runSt0) := by
  rfl

/-- C6: the claim says an INPUT node returns the configured `default_value` when
the run was started with no initial input. On the code `execute_workflow` always
seeds `variables["input"]` (with `None` when no input was given), so the
membership test in `_execute_input_node` always succeeds and the run returns
`None`, never the configured default `"d"`. -/
theorem c6_input_node_ignores_default :
    pyDictGet (execute_workflow env0 inputWire PyVal.none s0).1 "result" =
      some PyVal.none
  ∧ pyDictGet (execute_workflow env0 inputWire PyVal.none s0).1 "error" = Option.none
  ∧ some PyVal.none ≠ some (PyVal.str "d") := by
  refine ⟨by rfl, by rfl, ?_⟩
  simp

/-- C7: the claim says `validate` returns its result mapping without raising on
any payload, including nodes with missing fields. On the code the set
comprehension `{node["id"] for node in nodes}` at line 409 indexes with
`node["id"]`, so a node dict without an `id` key makes `validate_workflow` raise
`KeyError: 'id'` instead of returning the collected errors. -/
theorem c7_validate_raises_keyerror_on_missing_id :
    validate_workflow { nodes := [[("type", PyVal.str "input")]], connections := [] } =
      .error ⟨"KeyError", "\x27id\x27"⟩ := by
  rfl

/-- C8: the claim says `stop` transitions a running record to stopped AND stamps
its `end_time`, returning true. On the code line 383 sets the status, but line
384's `time.time()` raises `NameError` (`time` unbound in this method) before
`end_time` is stamped or `True` returned; the absent/non-running paths do return
`False` and leave the record untouched. -/
theorem c8_stop_running_raises_nameerror :
    (stop_execution "e1" runningSt).1 = .error timeNameError
  ∧ alookupB (stop_execution "e1" runningSt).2.engine.executions "e1" =
      some { runningRec with status := "stopped" }
  ∧ stop_execution "nope" runningSt = (.ok false, runningSt) := by
  exact ⟨by rfl, by rfl, by rfl⟩

/-- C9 counterexample: the claim says the engine obtained for a second call with
context `c2` is bound to `c2`. On the code `get_workflow_engine` keeps a
module-global singleton: after a first call with context `"c1"`, a call with
`"c2"` returns the SAME engine, still bound to `"c1"`. -/
theorem c9_counterexample_second_call_keeps_first_context :
    ((get_workflow_engine ((get_workflow_engine Option.none "c1").2) "c2").1).context = "c1"
  ∧ ((get_workflow_engine ((get_workflow_engine Option.none "c1").2) "c2").1).context ≠ "c2" := by
  refine ⟨by rfl, ?_⟩
  simp [get_workflow_engine]

/-- C9 (amended): `get_workflow_engine` is a process-wide singleton — the first
call constructs an engine bound to the first caller's context and with an empty
registry; every later call returns that same engine object unchanged, whatever
context it passes, so the registry is shared across all callers. -/
theorem c9_singleton_returns_first_engine (c1 c2 : String) :
    (get_workflow_engine ((get_workflow_engine Option.none c1).2) c2).1 =
      (get_workflow_engine Option.none c1).1
  ∧ ((get_workflow_engine Option.none c1).1).context = c1
  ∧ ((get_workflow_engine Option.none c1).1).executions = []
  ∧ (get_workflow_engine ((get_workflow_engine Option.none c1).2) c2).2 =
      (get_workflow_engine Option.none c1).2 := by
  exact ⟨rfl, rfl, rfl, rfl⟩

/-- C10 counterexample: the claim says two distinct `execute` calls on one
engine always get distinct execution ids, so no record is overwritten. The id is
`exec_<whole second of the start time>`: two runs started within the same second
(here at 0 ms and 5 ms) both return id `"exec_0"`, and after the second run the
registry holds a single record — the later run's (its `start_time` is the second
run's start read), the earlier record having been overwritten. -/
theorem c10_counterexample_same_second_ids_collide :
    pyDictGet (execute_workflow env0 inputWire PyVal.none s0).1 "execution_id" =
      some (.str "exec_0")
  ∧ pyDictGet (execute_workflow env0 inputWire PyVal.none
      (execute_workflow env0 inputWire PyVal.none s0).2).1 "execution_id" =
      some (.str "exec_0")
  ∧ (execute_workflow env0 inputWire PyVal.none
      (execute_workflow env0 inputWire PyVal.none s0).2).2.engine.executions.length = 1
  ∧ ((alookupB (execute_workflow env0 inputWire PyVal.none
      (execute_workflow env0 inputWire PyVal.none s0).2).2.engine.executions
        "exec_0").map (fun ex => ex.start_time)) = some 6 := by
  exact ⟨by rfl, by rfl, by rfl, by rfl⟩

theorem filter_not_of_all {α : Type} (l : List α) (p : α → Bool) (h : l.all p = true) :
    l.filter (fun a => !(p a)) = [] := by
  induction l with
  | nil => rfl
  | cons a t ih =>
    simp only [List.all_cons, Bool.and_eq_true] at h
    simp [List.filter_cons, h.1, ih h.2]

theorem run_try_no_start (env : Env) (wd : Wire) (ns : List WorkflowNode)
    (cs : List WorkflowConnection) (h1 : parseNodes wd.nodes = .ok ns)
    (h2 : parseConnections wd.connections = .ok cs)
    (h3 : ns.all (fun n => cs.any (fun c => c.to_node == n.id)) = true) (st : RunSt) :
    run_try env wd st = (.error ⟨"Exception", "No starting nodes found in workflow"⟩, st) := by
  unfold run_try
  rw [h1, h2]
  dsimp only [bindR, liftR]
  unfold execute_workflow_graph
  dsimp only
  rw [filter_not_of_all ns _ h3]
  rfl

theorem execute_workflow_execution_id (env : Env) (wd : Wire) (input_data : PyVal)
    (s : EngineSt) :
    pyDictGet (execute_workflow env wd input_data s).1 "execution_id" =
      some (.str (execIdOf s.clock)) := by
  unfold execute_workflow
  dsimp only
  split <;> rfl

theorem execute_workflow_registry (env : Env) (wd : Wire) (input_data : PyVal)
    (s : EngineSt) :
    ∃ ex1 ex2, (execute_workflow env wd input_data s).2.engine.executions =
      dinsert (dinsert s.engine.executions (execIdOf s.clock) ex1)
        (execIdOf s.clock) ex2 := by
  unfold execute_workflow
  dsimp only
  split
  · exact ⟨_, _, rfl⟩
  · exact ⟨_, _, rfl⟩

/-- C2 counterexample: the claim says `execute` always returns a mapping of the
form `{execution_id, result | error, log, duration}`. On the failure path (here:
the empty graph, which raises `NoStartNode` internally) the returned mapping has
NO `duration` key — it is `{execution_id, error, log}` only. -/
theorem c2_counterexample_error_result_lacks_duration :
    pyDictGet (execute_workflow env0 emptyWire PyVal.none s0).1 "duration" = Option.none
  ∧ pyDictGet (execute_workflow env0 emptyWire PyVal.none s0).1 "error" =
      some (.str "No starting nodes found in workflow")
  ∧ (pyDictGet (execute_workflow env0 emptyWire PyVal.none s0).1 "log").isSome = true := by
  exact ⟨by rfl, by rfl, by rfl⟩

/-- C2 (amended): `execute` never raises across its boundary (in this model it
returns a plain value for every wire payload, input and starting state). On
success the returned mapping is `{execution_id, result, log, duration}`; on any
propagated node or structural fault it is `{execution_id, error, log}` — WITHOUT
`duration` — and the Execution Record left in the registry under the returned id
has status `failed`, a stamped `end_time`, and an appended final log entry of
level `error` carrying the fault's message (which is also the `error` value). -/
theorem c2_execute_result_shape (env : Env) (wd : Wire) (input_data : PyVal)
    (s : EngineSt) :
    (∃ res logv dur, (execute_workflow env wd input_data s).1 =
       .dict [("execution_id", .str (execIdOf s.clock)), ("result", res),
              ("log", logv), ("duration", dur)])
  ∨ (∃ msg logv,
       (execute_workflow env wd input_data s).1 =
         .dict [("execution_id", .str (execIdOf s.clock)), ("error", .str msg),
                ("log", logv)]
     ∧ ∃ ex, alookupB (execute_workflow env wd input_data s).2.engine.executions
           (execIdOf s.clock) = some ex
         ∧ ex.status = "failed" ∧ ex.end_time.isSome = true
         ∧ ∃ rest entry, ex.execution_log = rest ++ [entry]
             ∧ entry.level = "error" ∧ entry.message = msg) := by
  unfold execute_workflow
  dsimp only
  split
  · left
    exact ⟨_, _, _, rfl⟩
  · right
    refine ⟨_, _, rfl, ?_⟩
    refine ⟨_, alookupB_dinsert_self _ _ _, rfl, rfl, ?_⟩
    exact ⟨_, _, rfl, rfl, rfl⟩

/-- C3 counterexample: the claim says an unvalidated cyclic graph passed to
`execute` fails with a CircularDependency-class error from an active-recursion
set. On the code there is no runtime cycle guard at all: for the cycle A→B→A
(every node has an incoming edge, so no start node exists) the run fails with
the NoStartNode error `"No starting nodes found in workflow"`, which is not the
cycle-detection error `"Circular dependency detected in workflow"`. -/
theorem c3_counterexample_cycle_fails_as_no_start :
    pyDictGet (execute_workflow env0 cycWire PyVal.none s0).1 "error" =
      some (.str "No starting nodes found in workflow")
  ∧ PyVal.str "No starting nodes found in workflow" ≠
      PyVal.str "Circular dependency detected in workflow" := by
  refine ⟨by rfl, ?_⟩
  simp

/-- C3 (amended): `execute` has no runtime active-recursion cycle guard, but it
also cannot recurse into a cycle, because only start nodes are demanded: for
every payload that parses to nodes `ns` and connections `cs` in which every node
has an incoming connection (in particular every graph whose nodes all lie on
cycles), the run fails immediately with the NoStartNode error
`"No starting nodes found in workflow"` — not a CircularDependency error and not
by divergence or stack exhaustion. -/
theorem c3_all_incoming_fails_as_no_start (env : Env) (wd : Wire) (input_data : PyVal)
    (s : EngineSt) (ns : List WorkflowNode) (cs : List WorkflowConnection)
    (h1 : parseNodes wd.nodes = .ok ns) (h2 : parseConnections wd.connections = .ok cs)
    (h3 : ns.all (fun n => cs.any (fun c => c.to_node == n.id)) = true) :
    ∃ logv, (execute_workflow env wd input_data s).1 =
      .dict [("execution_id", .str (execIdOf s.clock)),
             ("error", .str "No starting nodes found in workflow"), ("log", logv)] := by
  unfold execute_workflow
  dsimp only
  rw [run_try_no_start env wd ns cs h1 h2 h3]
  exact ⟨_, rfl⟩

/-- C3 witness: the amended theorem applied to the concrete cycle A→B→A. -/
theorem c3_witness_cycle_reports_no_start :
    ∃ logv, (execute_workflow env0 cycWire PyVal.none s0).1 =
      .dict [("execution_id", .str (execIdOf s0.clock)),
             ("error", .str "No starting nodes found in workflow"), ("log", logv)] :=
  c3_all_incoming_fails_as_no_start env0 cycWire PyVal.none s0
    [{ id := .str "A", type := .INPUT, config := .dict [], data := .dict [],
       x := PyVal.int 0, y := PyVal.int 0 },
     { id := .str "B", type := .INPUT, config := .dict [], data := .dict [],
       x := PyVal.int 0, y := PyVal.int 0 }]
    [{ id := .str "c1", from_node := .str "A", from_output := .int 0,
       to_node := .str "B", to_input := .int 0 },
     { id := .str "c2", from_node := .str "B", from_output := .int 0,
       to_node := .str "A", to_input := .int 0 }]
    (by rfl) (by rfl) (by rfl)

/-- C10 (amended): every run's execution id is `exec_<whole second of its start
clock>` (`execIdOf`), both in the returned mapping and as the registry key. Two
consecutive runs on the same engine get distinct ids exactly when their starting
clocks fall in different whole seconds; in that case the second run leaves the
first run's registry record untouched (same-second runs instead collide on one
id and the later run overwrites the record — see the counterexample). -/
theorem c10_distinct_seconds_preserve_first_record (env1 env2 : Env) (wd1 wd2 : Wire)
    (i1 i2 : PyVal) (s : EngineSt)
    (h : (execIdOf s.clock == execIdOf ((execute_workflow env1 wd1 i1 s).2.clock)) = false) :
    pyDictGet (execute_workflow env1 wd1 i1 s).1 "execution_id" =
      some (.str (execIdOf s.clock))
  ∧ pyDictGet (execute_workflow env2 wd2 i2 (execute_workflow env1 wd1 i1 s).2).1
      "execution_id" = some (.str (execIdOf ((execute_workflow env1 wd1 i1 s).2.clock)))
  ∧ execIdOf s.clock ≠ execIdOf ((execute_workflow env1 wd1 i1 s).2.clock)
  ∧ alookupB ((execute_workflow env2 wd2 i2
        (execute_workflow env1 wd1 i1 s).2).2.engine.executions) (execIdOf s.clock)
    = alookupB ((execute_workflow env1 wd1 i1 s).2.engine.executions)
        (execIdOf s.clock) := by
  refine ⟨execute_workflow_execution_id env1 wd1 i1 s,
          execute_workflow_execution_id env2 wd2 i2 _, by simpa using h, ?_⟩
  obtain ⟨ex1, ex2, hreg⟩ :=
    execute_workflow_registry env2 wd2 i2 (execute_workflow env1 wd1 i1 s).2
  rw [hreg, alookupB_dinsert_ne _ _ _ _ h, alookupB_dinsert_ne _ _ _ _ h]

/-- An engine world whose clock sits just before a second boundary: the next
run starts in second 0 and leaves the clock in second 1. -/
def s999 : EngineSt := { engine := { context := "ctx", executions := [] }, clock := 999 }

/-- C10 witness: the amended theorem applied to two concrete runs whose start
clocks (999 ms and 1004 ms) fall into different whole seconds, giving ids
`exec_0` and `exec_1` and preserving the first record. -/
theorem c10_witness_different_seconds :
    pyDictGet (execute_workflow env0 inputWire PyVal.none s999).1 "execution_id" =
      some (.str (execIdOf s999.clock))
  ∧ pyDictGet (execute_workflow env0 inputWire PyVal.none
      (execute_workflow env0 inputWire PyVal.none s999).2).1 "execution_id" =
      some (.str (execIdOf ((execute_workflow env0 inputWire PyVal.none s999).2.clock)))
  ∧ execIdOf s999.clock ≠ execIdOf ((execute_workflow env0 inputWire PyVal.none s999).2.clock)
  ∧ alookupB ((execute_workflow env0 inputWire PyVal.none
        (execute_workflow env0 inputWire PyVal.none s999).2).2.engine.executions)
      (execIdOf s999.clock)
    = alookupB ((execute_workflow env0 inputWire PyVal.none s999).2.engine.executions)
        (execIdOf s999.clock) :=
  c10_distinct_seconds_preserve_first_record env0 env0 inputWire inputWire
    PyVal.none PyVal.none s999 (by rfl)
